import Mathlib

/-!
# Room controller (src/controllers/roomController.js)

A shallow embedding of the five request handlers `createRoom`, `getRooms`,
`getRoom`, `updateRoom` and `deleteRoom`.

* The model object required from `../models/Room` is not part of the
  controller; it is a parameter of every handler (`Store`), with an explicit
  persistence state threaded through each call.
* A settled `await` is an `Except StoreError α`: `.ok v` for a fulfilled
  promise, `.error err` for a rejected one (the `catch (err)` branch).
* A document lookup returns `Option Room`; `none` is the falsy result tested
  by `if (!room)`.
* The value caught is a record of a failure kind and the string read by
  `err.message`; the handlers never look at the kind.
* The response object is the pair of the current status code (200 on a fresh
  response) and the trace of effects; `res.status(c)` overwrites the code and
  `res.json(b)` serialises `b` and then emits one `send` effect with the
  current code.
* Serialising a document of the model can throw (`Store.jsonError`); it does
  so before anything is written. Every `res.json` of a handler sits in its
  `try` block or its `catch` block, and a throw in the `try` block runs the
  `catch` block exactly as a rejected store call does.
* A block is an `Except (StoreError × Run) Run`: it completes in a state, or
  throws an error in the state reached at the throw.
-/

namespace RoomController

/-! ## Data model -/

/-- The kinds of failure a store call can settle with. The controller never
inspects the kind; it is carried so that statements can speak about it. -/
inductive ErrorKind where
  | validationFailure
  | malformedIdentifier
  | other
  deriving DecidableEq, Repr

/-- The value bound by `catch (err)`: only `err.message` is ever read. -/
structure StoreError where
  kind : ErrorKind
  message : String
  deriving DecidableEq, Repr

/-- The third argument of `Room.findByIdAndUpdate`. -/
structure UpdateOptions where
  new : Bool
  runValidators : Bool
  deriving DecidableEq, Repr

/-- The `req.params` object; only `id` is read. -/
structure Params (Id : Type) where
  id : Id
  deriving DecidableEq, Repr

/-- The request object: `req.params.id` and `req.body`. -/
structure Req (Id ReqBody : Type) where
  params : Params Id
  body : ReqBody
  deriving DecidableEq, Repr

/-- The JSON values handed to `res.json`. -/
inductive Body (Room : Type) where
  /-- A single document: `res.json(room)`. -/
  | room (r : Room)
  /-- The array returned by `Room.find()`: `res.json(rooms)`. -/
  | rooms (rs : List Room)
  /-- An object with the single key `error`. -/
  | error (msg : String)
  /-- An object with the single key `message`. -/
  | message (msg : String)
  deriving DecidableEq, Repr

/-- The store operation a handler awaits, with its arguments. -/
inductive StoreCall (Id ReqBody : Type) where
  | create (body : ReqBody)
  | find
  | findById (id : Id)
  | findByIdAndUpdate (id : Id) (body : ReqBody) (opts : UpdateOptions)
  | findByIdAndDelete (id : Id)
  deriving DecidableEq, Repr

/-- One observable effect of a handler. -/
inductive Effect (Id Room ReqBody : Type) where
  /-- An awaited call on the model object. -/
  | storeCall (c : StoreCall Id ReqBody)
  /-- A `console.error(label, err)` line. -/
  | consoleError (label : String) (err : StoreError)
  /-- A response written by `res.json` with the status code current then. -/
  | send (status : Nat) (body : Body Room)
  deriving DecidableEq, Repr

/-- The collaborator required from `../models/Room`. Every operation reads and
writes the persistence state `σ` and settles with a value or a failure. The
documents the model hands out bring their own `toJSON`, which `JSON.stringify`
calls inside `res.json`: `jsonError r` is `none` when serialising `r` returns
and `some err` when it throws `err`. -/
structure Store (Id Room ReqBody σ : Type) where
  create : ReqBody → σ → Except StoreError Room × σ
  find : σ → Except StoreError (List Room) × σ
  findById : Id → σ → Except StoreError (Option Room) × σ
  findByIdAndUpdate : Id → ReqBody → UpdateOptions → σ → Except StoreError (Option Room) × σ
  findByIdAndDelete : Id → σ → Except StoreError (Option Room) × σ
  jsonError : Room → Option StoreError

/-- The state of one request: the persistence state, the status code currently
set on the response object, the effects so far, and the error the handler let
escape, if any (the promise of the handler is then rejected). -/
structure Run (Id Room ReqBody σ : Type) where
  db : σ
  statusCode : Nat
  trace : List (Effect Id Room ReqBody)
  rejected : Option StoreError

variable {Id Room ReqBody σ : Type}

/-- A fresh request: nothing has happened and the status code is the framework
default 200. -/
def Run.start (db : σ) : Run Id Room ReqBody σ :=
  { db := db, statusCode := 200, trace := [], rejected := none }

/-- The error `JSON.stringify` throws on a body, if any: a document throws what
its `toJSON` throws, an array what its first throwing document throws, and an
object holding one string never throws. -/
def Body.stringifyError (jsonError : Room → Option StoreError) : Body Room → Option StoreError
  | Body.room r => jsonError r
  | Body.rooms rs => rs.findSome? jsonError
  | Body.error _ => none
  | Body.message _ => none

/-- The method `res.status(code)`: set the status code. -/
def Run.status (res : Run Id Room ReqBody σ) (code : Nat) : Run Id Room ReqBody σ :=
  { res with statusCode := code }

/-- The method `res.json(body)`: serialise the body, throwing if that throws,
then write the response with the current status code. -/
def Run.json (res : Run Id Room ReqBody σ) (jsonError : Room → Option StoreError)
    (body : Body Room) : Except (StoreError × Run Id Room ReqBody σ) (Run Id Room ReqBody σ) :=
  match body.stringifyError jsonError with
  | some err => .error (err, res)
  | none => .ok { res with trace := res.trace ++ [Effect.send res.statusCode body] }

/-- The call `console.error(label, err)`. -/
def Run.consoleError (res : Run Id Room ReqBody σ) (label : String) (err : StoreError) :
    Run Id Room ReqBody σ :=
  { res with trace := res.trace ++ [Effect.consoleError label err] }

/-- The expression `await op`: record the call, run it on the persistence state,
and return its value when it is fulfilled or throw its error when it is
rejected. -/
def Run.await {α : Type} (res : Run Id Room ReqBody σ) (call : StoreCall Id ReqBody)
    (op : σ → Except StoreError α × σ) :
    Except (StoreError × Run Id Room ReqBody σ) (α × Run Id Room ReqBody σ) :=
  let out := op res.db
  let res := { res with db := out.2, trace := res.trace ++ [Effect.storeCall call] }
  match out.1 with
  | .ok v => .ok (v, res)
  | .error err => .error (err, res)

/-- The statement `try body catch (err) handler`: when the body throws, the
handler runs on the error, from the state reached at the throw. -/
def tryCatch (body : Except (StoreError × Run Id Room ReqBody σ) (Run Id Room ReqBody σ))
    (handler : StoreError → Run Id Room ReqBody σ →
      Except (StoreError × Run Id Room ReqBody σ) (Run Id Room ReqBody σ)) :
    Except (StoreError × Run Id Room ReqBody σ) (Run Id Room ReqBody σ) :=
  match body with
  | .ok res => .ok res
  | .error (err, res) => handler err res

/-- The end of an `async` handler: the final state, with the escaped error
recorded when the body threw past every `catch`. -/
def settle : Except (StoreError × Run Id Room ReqBody σ) (Run Id Room ReqBody σ) →
    Run Id Room ReqBody σ
  | .ok res => res
  | .error (err, res) => { res with rejected := some err }

/-! ## The handlers -/

/-- Handler `exports.createRoom`. -/
def createRoom (store : Store Id Room ReqBody σ) (req : Req Id ReqBody)
    (res : Run Id Room ReqBody σ) : Run Id Room ReqBody σ :=
  settle <| tryCatch
    (match res.await (StoreCall.create req.body) (store.create req.body) with
     | .error thrown => .error thrown
     | .ok (room, res) => (res.status 201).json store.jsonError (Body.room room))
    (fun err res =>
      let res := res.consoleError "Error creating room:" err
      (res.status 400).json store.jsonError (Body.error err.message))

/-- Handler `exports.getRooms`. -/
def getRooms (store : Store Id Room ReqBody σ) (_req : Req Id ReqBody)
    (res : Run Id Room ReqBody σ) : Run Id Room ReqBody σ :=
  settle <| tryCatch
    (match res.await StoreCall.find store.find with
     | .error thrown => .error thrown
     | .ok (rooms, res) => (res.status 200).json store.jsonError (Body.rooms rooms))
    (fun _ res => (res.status 500).json store.jsonError (Body.error "Failed to fetch rooms"))

/-- Handler `exports.getRoom`. -/
def getRoom (store : Store Id Room ReqBody σ) (req : Req Id ReqBody)
    (res : Run Id Room ReqBody σ) : Run Id Room ReqBody σ :=
  settle <| tryCatch
    (match res.await (StoreCall.findById req.params.id) (store.findById req.params.id) with
     | .error thrown => .error thrown
     | .ok (none, res) => (res.status 404).json store.jsonError (Body.error "Room not found")
     | .ok (some room, res) => res.json store.jsonError (Body.room room))
    (fun _ res => (res.status 400).json store.jsonError (Body.error "Invalid room ID"))

/-- Handler `exports.updateRoom`. -/
def updateRoom (store : Store Id Room ReqBody σ) (req : Req Id ReqBody)
    (res : Run Id Room ReqBody σ) : Run Id Room ReqBody σ :=
  let opts : UpdateOptions := { new := true, runValidators := true }
  settle <| tryCatch
    (match res.await (StoreCall.findByIdAndUpdate req.params.id req.body opts)
        (store.findByIdAndUpdate req.params.id req.body opts) with
     | .error thrown => .error thrown
     | .ok (none, res) => (res.status 404).json store.jsonError (Body.error "Room not found")
     | .ok (some room, res) => res.json store.jsonError (Body.room room))
    (fun err res => (res.status 400).json store.jsonError (Body.error err.message))

/-- Handler `exports.deleteRoom`. -/
def deleteRoom (store : Store Id Room ReqBody σ) (req : Req Id ReqBody)
    (res : Run Id Room ReqBody σ) : Run Id Room ReqBody σ :=
  settle <| tryCatch
    (match res.await (StoreCall.findByIdAndDelete req.params.id)
        (store.findByIdAndDelete req.params.id) with
     | .error thrown => .error thrown
     | .ok (none, res) => (res.status 404).json store.jsonError (Body.error "Room not found")
     | .ok (some _, res) =>
       res.json store.jsonError (Body.message "Room deleted successfully"))
    (fun _ res => (res.status 400).json store.jsonError (Body.error "Invalid room ID"))

/-! ## Observations on a trace -/

/-- The responses written during a run, oldest first. -/
def responses : List (Effect Id Room ReqBody) → List (Nat × Body Room)
  | [] => []
  | Effect.send status body :: t => (status, body) :: responses t
  | _ :: t => responses t

/-- The store calls made during a run, oldest first. -/
def storeCalls : List (Effect Id Room ReqBody) → List (StoreCall Id ReqBody)
  | [] => []
  | Effect.storeCall c :: t => c :: storeCalls t
  | _ :: t => storeCalls t

/-- The status codes of the responses written during a run. -/
def statuses (t : List (Effect Id Room ReqBody)) : List Nat :=
  (responses t).map Prod.fst

/-- The bodies of the responses written during a run. -/
def bodies (t : List (Effect Id Room ReqBody)) : List (Body Room) :=
  (responses t).map Prod.snd

/-- Every store call of the run is made before the first response: nothing
is awaited once a response has been written. -/
def callsPrecedeResponses : List (Effect Id Room ReqBody) → Bool
  | [] => true
  | Effect.send _ _ :: t => (storeCalls t).isEmpty
  | _ :: t => callsPrecedeResponses t

/-! ## Substitute stores

The controller is exercised against substitutes for the model object: one whose
every call is rejected, one whose every call is fulfilled with fixed values, one
whose documents cannot be serialised, and the in-memory map used for the
delete/fetch scenario. -/

/-- A store every call of which is rejected with `err`; the state is untouched. -/
def failingStore (err : StoreError) : Store Id Room ReqBody σ where
  create := fun _ db => (.error err, db)
  find := fun db => (.error err, db)
  findById := fun _ db => (.error err, db)
  findByIdAndUpdate := fun _ _ _ db => (.error err, db)
  findByIdAndDelete := fun _ db => (.error err, db)
  jsonError := fun _ => none

/-- A store every call of which is fulfilled: `create` with `created`, `find`
with `all`, and the three lookups by identifier with `found`; the state is
untouched and every document serialises. -/
def fulfillingStore (created : Room) (all : List Room) (found : Option Room) :
    Store Id Room ReqBody σ where
  create := fun _ db => (.ok created, db)
  find := fun db => (.ok all, db)
  findById := fun _ db => (.ok found, db)
  findByIdAndUpdate := fun _ _ _ db => (.ok found, db)
  findByIdAndDelete := fun _ db => (.ok found, db)
  jsonError := fun _ => none

/-- A store every call of which is fulfilled as by `fulfillingStore`, but whose
documents all throw `err` when they are serialised. -/
def unserialisableStore (err : StoreError) (created : Room) (all : List Room)
    (found : Option Room) : Store Id Room ReqBody σ where
  create := fun _ db => (.ok created, db)
  find := fun db => (.ok all, db)
  findById := fun _ db => (.ok found, db)
  findByIdAndUpdate := fun _ _ _ db => (.ok found, db)
  findByIdAndDelete := fun _ db => (.ok found, db)
  jsonError := fun _ => some err

/-- Modelled from the spec: the reference store of the delete/fetch scenario.
The model object behind `../models/Room` is not in the controller file, so the
two operations the scenario uses are fixed by the words of the specification:
the persistence state is a map from identifier to Room, `findById` returns the
entry or nothing and changes nothing, and `findByIdAndDelete` returns the entry
or nothing and removes it. The three other operations and the serialisation
of documents are left free. -/
def IsReferenceStore [DecidableEq Id] (store : Store Id Room ReqBody (Id → Option Room)) : Prop :=
  (∀ id db, store.findById id db = (.ok (db id), db)) ∧
  (∀ id db, store.findByIdAndDelete id db = (.ok (db id), Function.update db id none))

/-- Modelled from the spec: an executable reference store. Lookup and deletion
act on the map as `IsReferenceStore` prescribes; the operations the scenario
does not use are taken from `rest`. -/
def referenceStore [DecidableEq Id] (rest : Store Id Room ReqBody (Id → Option Room)) :
    Store Id Room ReqBody (Id → Option Room) where
  create := rest.create
  find := rest.find
  findById := fun id db => (.ok (db id), db)
  findByIdAndUpdate := rest.findByIdAndUpdate
  findByIdAndDelete := fun id db => (.ok (db id), Function.update db id none)
  jsonError := rest.jsonError

/-- The map holding the single Room `r` under the identifier `id`. -/
def singleRoom [DecidableEq Id] (id : Id) (r : Room) : Id → Option Room :=
  Function.update (fun _ => none) id (some r)

/-! ## Concrete scenarios -/

/-- A schema rejection as the store reports it. -/
def requiredNameError : StoreError :=
  { kind := ErrorKind.validationFailure, message := "Room validation failed: name is required" }

/-- The identifier-format failure for the identifier "abc". -/
def castErrorAbc : StoreError :=
  { kind := ErrorKind.malformedIdentifier, message := "Cast to ObjectId failed for value abc" }

/-- The identifier-format failure for the identifier "xyz". -/
def castErrorXyz : StoreError :=
  { kind := ErrorKind.malformedIdentifier, message := "Cast to ObjectId failed for value xyz" }

/-- A failure of neither kind. -/
def unsupportedError : StoreError :=
  { kind := ErrorKind.other, message := "operation not supported" }

/-- What `JSON.stringify` throws on a document that refers to itself. -/
def circularError : StoreError :=
  { kind := ErrorKind.other, message := "Converting circular structure to JSON" }

/-- A request with identifier `id` and body `body`, both plain strings. -/
def request (id body : String) : Req String String :=
  { params := { id := id }, body := body }

/-- The substitute that rejects every call with `err`, over string identifiers,
documents and bodies and no persistence state. -/
def rejecting (err : StoreError) : Store String String String Unit :=
  failingStore err

/-- The substitute that fulfils every call with the document "Lab 1" (a list
holding it, for `find`), a document that throws `circularError` when it is
serialised. -/
def circular : Store String String String Unit :=
  unserialisableStore circularError "Lab 1" ["Lab 1"] (some "Lab 1")

/-- The substitute that fulfils every call: `create` and the lookups with the
document "Lab 1", `find` with the two documents "Lab 1" and "Lab 2"; every
document serialises. -/
def labs : Store String String String Unit :=
  fulfillingStore "Lab 1" ["Lab 1", "Lab 2"] (some "Lab 1")

/-- The executable reference store over string identifiers and documents; the
operations outside the scenario are rejected. -/
def roomMap : Store String String String (String → Option String) :=
  referenceStore (failingStore unsupportedError)

/-! ## Theorems -/

/-! ### Status of each handler, by outcome of its store call and of serialisation -/

theorem createRoom_statuses (store : Store Id Room ReqBody σ) (req : Req Id ReqBody) (db : σ) :
    statuses (createRoom store req (Run.start db)).trace =
      (match (store.create req.body db).1 with
       | .ok r =>
         (match store.jsonError r with
          | none => [201]
          | some _ => [400])
       | .error _ => [400]) := by
  unfold createRoom Run.await Run.start
  rcases h : (store.create req.body db).1 with e | r
  · simp [h, tryCatch, settle, Run.status, Run.json, Run.consoleError, Body.stringifyError,
        responses, storeCalls, statuses, bodies, callsPrecedeResponses]
  · rcases hj : store.jsonError r with _ | e <;>
      simp [h, hj, tryCatch, settle, Run.status, Run.json, Run.consoleError, Body.stringifyError,
        responses, storeCalls, statuses, bodies, callsPrecedeResponses]

theorem getRooms_statuses (store : Store Id Room ReqBody σ) (req : Req Id ReqBody) (db : σ) :
    statuses (getRooms store req (Run.start db)).trace =
      (match (store.find db).1 with
       | .ok s =>
         (match s.findSome? store.jsonError with
          | none => [200]
          | some _ => [500])
       | .error _ => [500]) := by
  unfold getRooms Run.await Run.start
  rcases h : (store.find db).1 with e | s
  · simp [h, tryCatch, settle, Run.status, Run.json, Run.consoleError, Body.stringifyError,
        responses, storeCalls, statuses, bodies, callsPrecedeResponses]
  · rcases hj : s.findSome? store.jsonError with _ | e <;>
      simp [h, hj, tryCatch, settle, Run.status, Run.json, Run.consoleError, Body.stringifyError,
        responses, storeCalls, statuses, bodies, callsPrecedeResponses]

theorem getRoom_statuses (store : Store Id Room ReqBody σ) (req : Req Id ReqBody) (db : σ) :
    statuses (getRoom store req (Run.start db)).trace =
      (match (store.findById req.params.id db).1 with
       | .ok (some r) =>
         (match store.jsonError r with
          | none => [200]
          | some _ => [400])
       | .ok none => [404]
       | .error _ => [400]) := by
  unfold getRoom Run.await Run.start
  rcases h : (store.findById req.params.id db).1 with e | (_ | r)
  · simp [h, tryCatch, settle, Run.status, Run.json, Run.consoleError, Body.stringifyError,
        responses, storeCalls, statuses, bodies, callsPrecedeResponses]
  · simp [h, tryCatch, settle, Run.status, Run.json, Run.consoleError, Body.stringifyError,
        responses, storeCalls, statuses, bodies, callsPrecedeResponses]
  · rcases hj : store.jsonError r with _ | e <;>
      simp [h, hj, tryCatch, settle, Run.status, Run.json, Run.consoleError, Body.stringifyError,
        responses, storeCalls, statuses, bodies, callsPrecedeResponses]

theorem updateRoom_statuses (store : Store Id Room ReqBody σ) (req : Req Id ReqBody) (db : σ) :
    statuses (updateRoom store req (Run.start db)).trace =
      (match (store.findByIdAndUpdate req.params.id req.body
          { new := true, runValidators := true } db).1 with
       | .ok (some r) =>
         (match store.jsonError r with
          | none => [200]
          | some _ => [400])
       | .ok none => [404]
       | .error _ => [400]) := by
  unfold updateRoom Run.await Run.start
  rcases h : (store.findByIdAndUpdate req.params.id req.body
        { new := true, runValidators := true } db).1 with e | (_ | r)
  · simp [h, tryCatch, settle, Run.status, Run.json, Run.consoleError, Body.stringifyError,
        responses, storeCalls, statuses, bodies, callsPrecedeResponses]
  · simp [h, tryCatch, settle, Run.status, Run.json, Run.consoleError, Body.stringifyError,
        responses, storeCalls, statuses, bodies, callsPrecedeResponses]
  · rcases hj : store.jsonError r with _ | e <;>
      simp [h, hj, tryCatch, settle, Run.status, Run.json, Run.consoleError, Body.stringifyError,
        responses, storeCalls, statuses, bodies, callsPrecedeResponses]

theorem deleteRoom_statuses (store : Store Id Room ReqBody σ) (req : Req Id ReqBody) (db : σ) :
    statuses (deleteRoom store req (Run.start db)).trace =
      (match (store.findByIdAndDelete req.params.id db).1 with
       | .ok (some _) => [200]
       | .ok none => [404]
       | .error _ => [400]) := by
  unfold deleteRoom Run.await Run.start
  rcases h : (store.findByIdAndDelete req.params.id db).1 with e | (_ | r) <;>
    simp [h, tryCatch, settle, Run.status, Run.json, Run.consoleError, Body.stringifyError,
      responses, storeCalls, statuses, bodies, callsPrecedeResponses]

/-- The persistence state after `deleteRoom` is the one the store call left. -/
theorem deleteRoom_db (store : Store Id Room ReqBody σ) (req : Req Id ReqBody) (db : σ) :
    (deleteRoom store req (Run.start db)).db = (store.findByIdAndDelete req.params.id db).2 := by
  unfold deleteRoom Run.await Run.start
  rcases h : (store.findByIdAndDelete req.params.id db).1 with e | (_ | r) <;>
    simp [h, tryCatch, settle, Run.status, Run.json, Run.consoleError, Body.stringifyError,
      responses, storeCalls, statuses, bodies, callsPrecedeResponses]

/-- The persistence state after `getRoom` is the one the store call left. -/
theorem getRoom_db (store : Store Id Room ReqBody σ) (req : Req Id ReqBody) (db : σ) :
    (getRoom store req (Run.start db)).db = (store.findById req.params.id db).2 := by
  unfold getRoom Run.await Run.start
  rcases h : (store.findById req.params.id db).1 with e | (_ | r)
  · simp [h, tryCatch, settle, Run.status, Run.json, Run.consoleError, Body.stringifyError,
        responses, storeCalls, statuses, bodies, callsPrecedeResponses]
  · simp [h, tryCatch, settle, Run.status, Run.json, Run.consoleError, Body.stringifyError,
        responses, storeCalls, statuses, bodies, callsPrecedeResponses]
  · rcases hj : store.jsonError r with _ | e <;>
      simp [h, hj, tryCatch, settle, Run.status, Run.json, Run.consoleError, Body.stringifyError,
        responses, storeCalls, statuses, bodies, callsPrecedeResponses]

/-- No handler lets an error escape: whatever the store and the serialisation
do, the `catch` block answers and the promise of the handler is fulfilled. -/
theorem handlers_never_reject (store : Store Id Room ReqBody σ) (req : Req Id ReqBody) (db : σ) :
    (createRoom store req (Run.start db)).rejected = none ∧
    (getRooms store req (Run.start db)).rejected = none ∧
    (getRoom store req (Run.start db)).rejected = none ∧
    (updateRoom store req (Run.start db)).rejected = none ∧
    (deleteRoom store req (Run.start db)).rejected = none := by
  refine ⟨?_, ?_, ?_, ?_, ?_⟩
  · unfold createRoom Run.await Run.start
    rcases h : (store.create req.body db).1 with e | r
    · simp [h, tryCatch, settle, Run.status, Run.json, Run.consoleError, Body.stringifyError,
          responses, storeCalls, statuses, bodies, callsPrecedeResponses]
    · rcases hj : store.jsonError r with _ | e <;>
        simp [h, hj, tryCatch, settle, Run.status, Run.json, Run.consoleError, Body.stringifyError,
          responses, storeCalls, statuses, bodies, callsPrecedeResponses]
  · unfold getRooms Run.await Run.start
    rcases h : (store.find db).1 with e | s
    · simp [h, tryCatch, settle, Run.status, Run.json, Run.consoleError, Body.stringifyError,
          responses, storeCalls, statuses, bodies, callsPrecedeResponses]
    · rcases hj : s.findSome? store.jsonError with _ | e <;>
        simp [h, hj, tryCatch, settle, Run.status, Run.json, Run.consoleError, Body.stringifyError,
          responses, storeCalls, statuses, bodies, callsPrecedeResponses]
  · unfold getRoom Run.await Run.start
    rcases h : (store.findById req.params.id db).1 with e | (_ | r)
    · simp [h, tryCatch, settle, Run.status, Run.json, Run.consoleError, Body.stringifyError,
          responses, storeCalls, statuses, bodies, callsPrecedeResponses]
    · simp [h, tryCatch, settle, Run.status, Run.json, Run.consoleError, Body.stringifyError,
          responses, storeCalls, statuses, bodies, callsPrecedeResponses]
    · rcases hj : store.jsonError r with _ | e <;>
        simp [h, hj, tryCatch, settle, Run.status, Run.json, Run.consoleError, Body.stringifyError,
          responses, storeCalls, statuses, bodies, callsPrecedeResponses]
  · unfold updateRoom Run.await Run.start
    rcases h : (store.findByIdAndUpdate req.params.id req.body
          { new := true, runValidators := true } db).1 with e | (_ | r)
    · simp [h, tryCatch, settle, Run.status, Run.json, Run.consoleError, Body.stringifyError,
          responses, storeCalls, statuses, bodies, callsPrecedeResponses]
    · simp [h, tryCatch, settle, Run.status, Run.json, Run.consoleError, Body.stringifyError,
          responses, storeCalls, statuses, bodies, callsPrecedeResponses]
    · rcases hj : store.jsonError r with _ | e <;>
        simp [h, hj, tryCatch, settle, Run.status, Run.json, Run.consoleError, Body.stringifyError,
          responses, storeCalls, statuses, bodies, callsPrecedeResponses]
  · unfold deleteRoom Run.await Run.start
    rcases h : (store.findByIdAndDelete req.params.id db).1 with e | (_ | r)
    · simp [h, tryCatch, settle, Run.status, Run.json, Run.consoleError, Body.stringifyError,
          responses, storeCalls, statuses, bodies, callsPrecedeResponses]
    · simp [h, tryCatch, settle, Run.status, Run.json, Run.consoleError, Body.stringifyError,
          responses, storeCalls, statuses, bodies, callsPrecedeResponses]
    · rcases hj : store.jsonError r with _ | e <;>
        simp [h, hj, tryCatch, settle, Run.status, Run.json, Run.consoleError, Body.stringifyError,
          responses, storeCalls, statuses, bodies, callsPrecedeResponses]

/-! ### The claims -/

/-- C1 (as stated, refuted): the lookup of `getRoom` is fulfilled with the
document "Lab 1", serialising that document throws, and the response is 400
with the error body "Invalid room ID", not 200 with the document. -/
theorem getRoom_found_unserialisable_400 :
    (circular.findById "r1" ()).1 = .ok (some "Lab 1") ∧
    responses (getRoom circular (request "r1" "") (Run.start ())).trace =
      [(400, Body.error "Invalid room ID")] ∧
    responses (getRoom circular (request "r1" "") (Run.start ())).trace ≠
      [(200, Body.room "Lab 1")] := by
  simp [circular, unserialisableStore, circularError, request, getRoom, Run.await, Run.start,
    tryCatch, settle, Run.status, Run.json, Run.consoleError, Body.stringifyError,
      responses, storeCalls, statuses, bodies, callsPrecedeResponses]

/-- C1 (amended): for every store, request and persistence state, `getRoom` on
a fresh response makes the single call `findById(id)` and answers by how it
settled: a document `r` that serialises gives status 200 (never set
explicitly) with body `r`; a document whose serialisation throws gives 400
with the error body "Invalid room ID"; no document gives 404 with the error
body "Room not found"; any failure gives 400 with the error body
"Invalid room ID", whatever its kind and message. -/
theorem getRoom_maps_outcome (store : Store Id Room ReqBody σ) (req : Req Id ReqBody) (db : σ) :
    storeCalls (getRoom store req (Run.start db)).trace = [StoreCall.findById req.params.id] ∧
    responses (getRoom store req (Run.start db)).trace =
      (match (store.findById req.params.id db).1 with
       | .ok (some r) =>
         (match store.jsonError r with
          | none => [(200, Body.room r)]
          | some _ => [(400, Body.error "Invalid room ID")])
       | .ok none => [(404, Body.error "Room not found")]
       | .error _ => [(400, Body.error "Invalid room ID")]) := by
  unfold getRoom Run.await Run.start
  rcases h : (store.findById req.params.id db).1 with e | (_ | r)
  · simp [h, tryCatch, settle, Run.status, Run.json, Run.consoleError, Body.stringifyError,
        responses, storeCalls, statuses, bodies, callsPrecedeResponses]
  · simp [h, tryCatch, settle, Run.status, Run.json, Run.consoleError, Body.stringifyError,
        responses, storeCalls, statuses, bodies, callsPrecedeResponses]
  · rcases hj : store.jsonError r with _ | e <;>
      simp [h, hj, tryCatch, settle, Run.status, Run.json, Run.consoleError, Body.stringifyError,
        responses, storeCalls, statuses, bodies, callsPrecedeResponses]

/-- C2 (as stated, refuted): the call `create(b)` is fulfilled with the document
"Lab 1", serialising that document throws, and the response is 400 with the
error body carrying the message of the serialisation error, not 201 with the
document. -/
theorem createRoom_created_unserialisable_400 :
    (circular.create "name=Lab 1" ()).1 = .ok "Lab 1" ∧
    responses (createRoom circular (request "" "name=Lab 1") (Run.start ())).trace =
      [(400, Body.error "Converting circular structure to JSON")] ∧
    responses (createRoom circular (request "" "name=Lab 1") (Run.start ())).trace ≠
      [(201, Body.room "Lab 1")] := by
  simp [circular, unserialisableStore, circularError, request, createRoom, Run.await, Run.start,
    tryCatch, settle, Run.status, Run.json, Run.consoleError, Body.stringifyError,
      responses, storeCalls, statuses, bodies, callsPrecedeResponses]

/-- C2 (amended): for every store, request body and persistence state,
`createRoom` answers 201 with exactly the Room the store created when
`create(b)` is fulfilled and that Room serialises; 400 with the error body
carrying the message of the error when serialising the created Room throws;
and 400 with the error body carrying the failure message when `create(b)` is
rejected; the status is never anything but 201 or 400. -/
theorem createRoom_maps_outcome (store : Store Id Room ReqBody σ) (req : Req Id ReqBody) (db : σ) :
    storeCalls (createRoom store req (Run.start db)).trace = [StoreCall.create req.body] ∧
    responses (createRoom store req (Run.start db)).trace =
      (match (store.create req.body db).1 with
       | .ok r =>
         (match store.jsonError r with
          | none => [(201, Body.room r)]
          | some err => [(400, Body.error err.message)])
       | .error err => [(400, Body.error err.message)]) ∧
    (statuses (createRoom store req (Run.start db)).trace = [201] ∨
      statuses (createRoom store req (Run.start db)).trace = [400]) := by
  unfold createRoom Run.await Run.start
  rcases h : (store.create req.body db).1 with e | r
  · simp [h, tryCatch, settle, Run.status, Run.json, Run.consoleError, Body.stringifyError,
        responses, storeCalls, statuses, bodies, callsPrecedeResponses]
  · rcases hj : store.jsonError r with _ | e <;>
      simp [h, hj, tryCatch, settle, Run.status, Run.json, Run.consoleError, Body.stringifyError,
        responses, storeCalls, statuses, bodies, callsPrecedeResponses]

/-- C3 (as stated, refuted): the update of `updateRoom` is fulfilled with the
document "Lab 1", serialising that document throws, and the response is 400
with the error body carrying the message of the serialisation error, not 200
with the document. -/
theorem updateRoom_found_unserialisable_400 :
    (circular.findByIdAndUpdate "r1" "name=Lab 1" ⟨true, true⟩ ()).1 = .ok (some "Lab 1") ∧
    responses (updateRoom circular (request "r1" "name=Lab 1") (Run.start ())).trace =
      [(400, Body.error "Converting circular structure to JSON")] ∧
    responses (updateRoom circular (request "r1" "name=Lab 1") (Run.start ())).trace ≠
      [(200, Body.room "Lab 1")] := by
  simp [circular, unserialisableStore, circularError, request, updateRoom, Run.await, Run.start,
    tryCatch, settle, Run.status, Run.json, Run.consoleError, Body.stringifyError,
      responses, storeCalls, statuses, bodies, callsPrecedeResponses]

/-- C3 (amended): for every store, identifier, body and persistence state,
`updateRoom` makes the single call `findByIdAndUpdate(id, b, opts)` with `new`
and `runValidators` both true, and answers by how that call settled: a
document `r` that serialises gives 200 with body `r`; a document whose
serialisation throws an error with message `m` gives 400 with the error body
`m`; no document gives 404 with the error body "Room not found"; a failure
with message `m` gives 400 with the error body `m`. -/
theorem updateRoom_maps_outcome (store : Store Id Room ReqBody σ) (req : Req Id ReqBody) (db : σ) :
    storeCalls (updateRoom store req (Run.start db)).trace =
      [StoreCall.findByIdAndUpdate req.params.id req.body
        { new := true, runValidators := true }] ∧
    responses (updateRoom store req (Run.start db)).trace =
      (match (store.findByIdAndUpdate req.params.id req.body
          { new := true, runValidators := true } db).1 with
       | .ok (some r) =>
         (match store.jsonError r with
          | none => [(200, Body.room r)]
          | some err => [(400, Body.error err.message)])
       | .ok none => [(404, Body.error "Room not found")]
       | .error err => [(400, Body.error err.message)]) := by
  unfold updateRoom Run.await Run.start
  rcases h : (store.findByIdAndUpdate req.params.id req.body
        { new := true, runValidators := true } db).1 with e | (_ | r)
  · simp [h, tryCatch, settle, Run.status, Run.json, Run.consoleError, Body.stringifyError,
        responses, storeCalls, statuses, bodies, callsPrecedeResponses]
  · simp [h, tryCatch, settle, Run.status, Run.json, Run.consoleError, Body.stringifyError,
        responses, storeCalls, statuses, bodies, callsPrecedeResponses]
  · rcases hj : store.jsonError r with _ | e <;>
      simp [h, hj, tryCatch, settle, Run.status, Run.json, Run.consoleError, Body.stringifyError,
        responses, storeCalls, statuses, bodies, callsPrecedeResponses]

/-- C4: for every store, identifier and persistence state, `deleteRoom` makes
the single call `findByIdAndDelete(id)` and answers by how it settled: a deleted
document gives 200 with the fixed confirmation "Room deleted successfully",
the same for every document and built without it; no document gives 404 with
the error body "Room not found"; any failure gives 400 with the error body
"Invalid room ID". -/
theorem deleteRoom_maps_outcome (store : Store Id Room ReqBody σ) (req : Req Id ReqBody) (db : σ) :
    storeCalls (deleteRoom store req (Run.start db)).trace =
      [StoreCall.findByIdAndDelete req.params.id] ∧
    responses (deleteRoom store req (Run.start db)).trace =
      (match (store.findByIdAndDelete req.params.id db).1 with
       | .ok (some _) => [(200, Body.message "Room deleted successfully")]
       | .ok none => [(404, Body.error "Room not found")]
       | .error _ => [(400, Body.error "Invalid room ID")]) := by
  unfold deleteRoom Run.await Run.start
  rcases h : (store.findByIdAndDelete req.params.id db).1 with e | (_ | r) <;>
    simp [h, tryCatch, settle, Run.status, Run.json, Run.consoleError, Body.stringifyError,
      responses, storeCalls, statuses, bodies, callsPrecedeResponses]

/-- C5 (as stated, refuted): the find-all call of `getRooms` is fulfilled with
the one-document sequence holding "Lab 1", serialising that document throws,
and the response is 500 with the error body "Failed to fetch rooms", not 200
with the sequence. -/
theorem getRooms_unserialisable_500 :
    (circular.find ()).1 = .ok ["Lab 1"] ∧
    responses (getRooms circular (request "" "") (Run.start ())).trace =
      [(500, Body.error "Failed to fetch rooms")] ∧
    responses (getRooms circular (request "" "") (Run.start ())).trace ≠
      [(200, Body.rooms ["Lab 1"])] := by
  simp [circular, unserialisableStore, circularError, request, getRooms, Run.await, Run.start,
    tryCatch, settle, Run.status, Run.json, Run.consoleError, Body.stringifyError,
      responses, storeCalls, statuses, bodies, callsPrecedeResponses]

/-- C5 (amended): for every store and persistence state, `getRooms` answers 200
with exactly the sequence the find-all call was fulfilled with, in the same
order (the empty sequence included), when no Room of the sequence throws while
it is serialised; it answers 500 with the one error body
"Failed to fetch rooms" when some Room of the sequence throws while it is
serialised, and when the call is rejected, whatever the failure. -/
theorem getRooms_maps_outcome (store : Store Id Room ReqBody σ) (req : Req Id ReqBody) (db : σ) :
    storeCalls (getRooms store req (Run.start db)).trace = [StoreCall.find] ∧
    responses (getRooms store req (Run.start db)).trace =
      (match (store.find db).1 with
       | .ok s =>
         (match s.findSome? store.jsonError with
          | none => [(200, Body.rooms s)]
          | some _ => [(500, Body.error "Failed to fetch rooms")])
       | .error _ => [(500, Body.error "Failed to fetch rooms")]) ∧
    ((∀ s, (store.find db).1 = .ok s → (∀ r ∈ s, store.jsonError r = none) →
        responses (getRooms store req (Run.start db)).trace = [(200, Body.rooms s)]) ∧
      (∀ s r, (store.find db).1 = .ok s → r ∈ s → store.jsonError r ≠ none →
        responses (getRooms store req (Run.start db)).trace =
          [(500, Body.error "Failed to fetch rooms")])) := by
  have key : responses (getRooms store req (Run.start db)).trace =
      (match (store.find db).1 with
       | .ok s =>
         (match s.findSome? store.jsonError with
          | none => [(200, Body.rooms s)]
          | some _ => [(500, Body.error "Failed to fetch rooms")])
       | .error _ => [(500, Body.error "Failed to fetch rooms")]) := by
    unfold getRooms Run.await Run.start
    rcases h : (store.find db).1 with e | s
    · simp [h, tryCatch, settle, Run.status, Run.json, Run.consoleError, Body.stringifyError,
          responses, storeCalls, statuses, bodies, callsPrecedeResponses]
    · rcases hj : s.findSome? store.jsonError with _ | e <;>
        simp [h, hj, tryCatch, settle, Run.status, Run.json, Run.consoleError, Body.stringifyError,
          responses, storeCalls, statuses, bodies, callsPrecedeResponses]
  refine ⟨?_, key, ?_, ?_⟩
  · unfold getRooms Run.await Run.start
    rcases h : (store.find db).1 with e | s
    · simp [h, tryCatch, settle, Run.status, Run.json, Run.consoleError, Body.stringifyError,
          responses, storeCalls, statuses, bodies, callsPrecedeResponses]
    · rcases hj : s.findSome? store.jsonError with _ | e <;>
        simp [h, hj, tryCatch, settle, Run.status, Run.json, Run.consoleError, Body.stringifyError,
          responses, storeCalls, statuses, bodies, callsPrecedeResponses]
  · intro s hs hall
    rw [key, hs]
    have hnone : s.findSome? store.jsonError = none := List.findSome?_eq_none_iff.mpr hall
    simp [hnone]
  · intro s r hs hr hthrow
    rw [key, hs]
    rcases hj : s.findSome? store.jsonError with _ | e
    · exact absurd (List.findSome?_eq_none_iff.mp hj r hr) hthrow
    · simp [hj]

/-- C5 (amended), at concrete stores: a find-all call fulfilled with the two
serialisable documents "Lab 1" and "Lab 2" is answered 200 with that sequence
in that order; one fulfilled with a sequence holding a document that throws
while it is serialised is answered 500 with "Failed to fetch rooms". -/
theorem getRooms_maps_outcome_witness :
    responses (getRooms labs (request "" "") (Run.start ())).trace =
      [(200, Body.rooms ["Lab 1", "Lab 2"])] ∧
    responses (getRooms circular (request "" "") (Run.start ())).trace =
      [(500, Body.error "Failed to fetch rooms")] :=
  ⟨(getRooms_maps_outcome labs (request "" "") ()).2.2.1 ["Lab 1", "Lab 2"] rfl
      (fun _ _ => rfl),
    (getRooms_maps_outcome circular (request "" "") ()).2.2.2 ["Lab 1"] "Lab 1" rfl
      (List.mem_singleton.mpr rfl) (by simp [circular, unserialisableStore])⟩

/-- C6: for each of the five handlers, every store, request and persistence
state, the effect trace holds exactly one store call and exactly one response,
and the store call is made before the response. -/
theorem one_call_then_one_response (store : Store Id Room ReqBody σ) (req : Req Id ReqBody)
    (db : σ) :
    ((storeCalls (createRoom store req (Run.start db)).trace).length = 1 ∧
      (responses (createRoom store req (Run.start db)).trace).length = 1 ∧
      callsPrecedeResponses (createRoom store req (Run.start db)).trace = true) ∧
    ((storeCalls (getRooms store req (Run.start db)).trace).length = 1 ∧
      (responses (getRooms store req (Run.start db)).trace).length = 1 ∧
      callsPrecedeResponses (getRooms store req (Run.start db)).trace = true) ∧
    ((storeCalls (getRoom store req (Run.start db)).trace).length = 1 ∧
      (responses (getRoom store req (Run.start db)).trace).length = 1 ∧
      callsPrecedeResponses (getRoom store req (Run.start db)).trace = true) ∧
    ((storeCalls (updateRoom store req (Run.start db)).trace).length = 1 ∧
      (responses (updateRoom store req (Run.start db)).trace).length = 1 ∧
      callsPrecedeResponses (updateRoom store req (Run.start db)).trace = true) ∧
    ((storeCalls (deleteRoom store req (Run.start db)).trace).length = 1 ∧
      (responses (deleteRoom store req (Run.start db)).trace).length = 1 ∧
      callsPrecedeResponses (deleteRoom store req (Run.start db)).trace = true) := by
  refine ⟨?_, ?_, ?_, ?_, ?_⟩
  · unfold createRoom Run.await Run.start
    rcases h : (store.create req.body db).1 with e | r
    · simp [h, tryCatch, settle, Run.status, Run.json, Run.consoleError, Body.stringifyError,
          responses, storeCalls, statuses, bodies, callsPrecedeResponses]
    · rcases hj : store.jsonError r with _ | e <;>
        simp [h, hj, tryCatch, settle, Run.status, Run.json, Run.consoleError, Body.stringifyError,
          responses, storeCalls, statuses, bodies, callsPrecedeResponses]
  · unfold getRooms Run.await Run.start
    rcases h : (store.find db).1 with e | s
    · simp [h, tryCatch, settle, Run.status, Run.json, Run.consoleError, Body.stringifyError,
          responses, storeCalls, statuses, bodies, callsPrecedeResponses]
    · rcases hj : s.findSome? store.jsonError with _ | e <;>
        simp [h, hj, tryCatch, settle, Run.status, Run.json, Run.consoleError, Body.stringifyError,
          responses, storeCalls, statuses, bodies, callsPrecedeResponses]
  · unfold getRoom Run.await Run.start
    rcases h : (store.findById req.params.id db).1 with e | (_ | r)
    · simp [h, tryCatch, settle, Run.status, Run.json, Run.consoleError, Body.stringifyError,
          responses, storeCalls, statuses, bodies, callsPrecedeResponses]
    · simp [h, tryCatch, settle, Run.status, Run.json, Run.consoleError, Body.stringifyError,
          responses, storeCalls, statuses, bodies, callsPrecedeResponses]
    · rcases hj : store.jsonError r with _ | e <;>
        simp [h, hj, tryCatch, settle, Run.status, Run.json, Run.consoleError, Body.stringifyError,
          responses, storeCalls, statuses, bodies, callsPrecedeResponses]
  · unfold updateRoom Run.await Run.start
    rcases h : (store.findByIdAndUpdate req.params.id req.body
          { new := true, runValidators := true } db).1 with e | (_ | r)
    · simp [h, tryCatch, settle, Run.status, Run.json, Run.consoleError, Body.stringifyError,
          responses, storeCalls, statuses, bodies, callsPrecedeResponses]
    · simp [h, tryCatch, settle, Run.status, Run.json, Run.consoleError, Body.stringifyError,
          responses, storeCalls, statuses, bodies, callsPrecedeResponses]
    · rcases hj : store.jsonError r with _ | e <;>
        simp [h, hj, tryCatch, settle, Run.status, Run.json, Run.consoleError, Body.stringifyError,
          responses, storeCalls, statuses, bodies, callsPrecedeResponses]
  · unfold deleteRoom Run.await Run.start
    rcases h : (store.findByIdAndDelete req.params.id db).1 with e | (_ | r)
    · simp [h, tryCatch, settle, Run.status, Run.json, Run.consoleError, Body.stringifyError,
          responses, storeCalls, statuses, bodies, callsPrecedeResponses]
    · simp [h, tryCatch, settle, Run.status, Run.json, Run.consoleError, Body.stringifyError,
          responses, storeCalls, statuses, bodies, callsPrecedeResponses]
    · rcases hj : store.jsonError r with _ | e <;>
        simp [h, hj, tryCatch, settle, Run.status, Run.json, Run.consoleError, Body.stringifyError,
          responses, storeCalls, statuses, bodies, callsPrecedeResponses]

/-- C7: the status codes each handler can produce, over all stores, requests
and persistence states, are exactly those of the interface table: `createRoom`
201 and 400; `getRooms` 200 and 500; `getRoom`, `updateRoom` and `deleteRoom`
200, 404 and 400, each of them produced by some store outcome. A failed store
call is answered 400 by the four handlers other than `getRooms`, none of which
ever answers 500. -/
theorem status_sets_match_table [Inhabited Id] [Inhabited Room] [Inhabited ReqBody] [Inhabited σ] :
    {c | ∃ (store : Store Id Room ReqBody σ) (req : Req Id ReqBody) (db : σ),
        c ∈ statuses (createRoom store req (Run.start db)).trace} = ({201, 400} : Set Nat) ∧
    {c | ∃ (store : Store Id Room ReqBody σ) (req : Req Id ReqBody) (db : σ),
        c ∈ statuses (getRooms store req (Run.start db)).trace} = ({200, 500} : Set Nat) ∧
    {c | ∃ (store : Store Id Room ReqBody σ) (req : Req Id ReqBody) (db : σ),
        c ∈ statuses (getRoom store req (Run.start db)).trace} = ({200, 404, 400} : Set Nat) ∧
    {c | ∃ (store : Store Id Room ReqBody σ) (req : Req Id ReqBody) (db : σ),
        c ∈ statuses (updateRoom store req (Run.start db)).trace} = ({200, 404, 400} : Set Nat) ∧
    {c | ∃ (store : Store Id Room ReqBody σ) (req : Req Id ReqBody) (db : σ),
        c ∈ statuses (deleteRoom store req (Run.start db)).trace} = ({200, 404, 400} : Set Nat) ∧
    (∀ (store : Store Id Room ReqBody σ) (req : Req Id ReqBody) (db : σ) (err : StoreError),
      ((store.create req.body db).1 = .error err →
        statuses (createRoom store req (Run.start db)).trace = [400]) ∧
      ((store.findById req.params.id db).1 = .error err →
        statuses (getRoom store req (Run.start db)).trace = [400]) ∧
      ((store.findByIdAndUpdate req.params.id req.body
          { new := true, runValidators := true } db).1 = .error err →
        statuses (updateRoom store req (Run.start db)).trace = [400]) ∧
      ((store.findByIdAndDelete req.params.id db).1 = .error err →
        statuses (deleteRoom store req (Run.start db)).trace = [400])) := by
  have e0 : StoreError := { kind := ErrorKind.other, message := "" }
  refine ⟨?_, ?_, ?_, ?_, ?_, ?_⟩
  · ext c
    simp only [Set.mem_setOf_eq, Set.mem_insert_iff, Set.mem_singleton_iff]
    constructor
    · rintro ⟨store, req, db, hc⟩
      rw [createRoom_statuses] at hc
      rcases h : (store.create req.body db).1 with e | r <;> simp [h] at hc <;> (try split at hc) <;> simp_all
    · rintro (rfl | rfl)
      · refine ⟨fulfillingStore default [] none, ⟨⟨default⟩, default⟩, default, ?_⟩
        simp [createRoom_statuses, fulfillingStore]
      · refine ⟨failingStore e0, ⟨⟨default⟩, default⟩, default, ?_⟩
        simp [createRoom_statuses, failingStore]
  · ext c
    simp only [Set.mem_setOf_eq, Set.mem_insert_iff, Set.mem_singleton_iff]
    constructor
    · rintro ⟨store, req, db, hc⟩
      rw [getRooms_statuses] at hc
      rcases h : (store.find db).1 with e | r <;> simp [h] at hc <;> (try split at hc) <;> simp_all
    · rintro (rfl | rfl)
      · refine ⟨fulfillingStore default [] none, ⟨⟨default⟩, default⟩, default, ?_⟩
        simp [getRooms_statuses, fulfillingStore]
      · refine ⟨failingStore e0, ⟨⟨default⟩, default⟩, default, ?_⟩
        simp [getRooms_statuses, failingStore]
  · ext c
    simp only [Set.mem_setOf_eq, Set.mem_insert_iff, Set.mem_singleton_iff]
    constructor
    · rintro ⟨store, req, db, hc⟩
      rw [getRoom_statuses] at hc
      rcases h : (store.findById req.params.id db).1 with e | (_ | r) <;>
        simp [h] at hc <;> (try split at hc) <;> simp_all
    · rintro (rfl | rfl | rfl)
      · refine ⟨fulfillingStore default [] (some default), ⟨⟨default⟩, default⟩, default, ?_⟩
        simp [getRoom_statuses, fulfillingStore]
      · refine ⟨fulfillingStore default [] none, ⟨⟨default⟩, default⟩, default, ?_⟩
        simp [getRoom_statuses, fulfillingStore]
      · refine ⟨failingStore e0, ⟨⟨default⟩, default⟩, default, ?_⟩
        simp [getRoom_statuses, failingStore]
  · ext c
    simp only [Set.mem_setOf_eq, Set.mem_insert_iff, Set.mem_singleton_iff]
    constructor
    · rintro ⟨store, req, db, hc⟩
      rw [updateRoom_statuses] at hc
      rcases h : (store.findByIdAndUpdate req.params.id req.body
          { new := true, runValidators := true } db).1 with e | (_ | r) <;>
        simp [h] at hc <;> (try split at hc) <;> simp_all
    · rintro (rfl | rfl | rfl)
      · refine ⟨fulfillingStore default [] (some default), ⟨⟨default⟩, default⟩, default, ?_⟩
        simp [updateRoom_statuses, fulfillingStore]
      · refine ⟨fulfillingStore default [] none, ⟨⟨default⟩, default⟩, default, ?_⟩
        simp [updateRoom_statuses, fulfillingStore]
      · refine ⟨failingStore e0, ⟨⟨default⟩, default⟩, default, ?_⟩
        simp [updateRoom_statuses, failingStore]
  · ext c
    simp only [Set.mem_setOf_eq, Set.mem_insert_iff, Set.mem_singleton_iff]
    constructor
    · rintro ⟨store, req, db, hc⟩
      rw [deleteRoom_statuses] at hc
      rcases h : (store.findByIdAndDelete req.params.id db).1 with e | (_ | r) <;>
        simp [h] at hc <;> simp [hc]
    · rintro (rfl | rfl | rfl)
      · refine ⟨fulfillingStore default [] (some default), ⟨⟨default⟩, default⟩, default, ?_⟩
        simp [deleteRoom_statuses, fulfillingStore]
      · refine ⟨fulfillingStore default [] none, ⟨⟨default⟩, default⟩, default, ?_⟩
        simp [deleteRoom_statuses, fulfillingStore]
      · refine ⟨failingStore e0, ⟨⟨default⟩, default⟩, default, ?_⟩
        simp [deleteRoom_statuses, failingStore]
  · intro store req db err
    refine ⟨fun h => ?_, fun h => ?_, fun h => ?_, fun h => ?_⟩
    · rw [createRoom_statuses, h]
    · rw [getRoom_statuses, h]
    · rw [updateRoom_statuses, h]
    · rw [deleteRoom_statuses, h]

/-- C7, at a concrete store: every call is rejected, and `createRoom`,
`getRoom`, `updateRoom` and `deleteRoom` all answer 400. -/
theorem status_sets_match_table_witness :
    statuses (createRoom (rejecting unsupportedError) (request "r1" "") (Run.start ())).trace
      = [400] ∧
    statuses (getRoom (rejecting unsupportedError) (request "r1" "") (Run.start ())).trace
      = [400] ∧
    statuses (updateRoom (rejecting unsupportedError) (request "r1" "") (Run.start ())).trace
      = [400] ∧
    statuses (deleteRoom (rejecting unsupportedError) (request "r1" "") (Run.start ())).trace
      = [400] :=
  have h := (@status_sets_match_table String String String Unit _ _ _ _).2.2.2.2.2
    (rejecting unsupportedError) (request "r1" "") () unsupportedError
  ⟨h.1 rfl, h.2.1 rfl, h.2.2.1 rfl, h.2.2.2 rfl⟩

/-- C8 (as stated, refuted): the lookup of `getRoom` and the deletion of
`deleteRoom` are rejected with a validation failure carrying a message, and
both handlers answer with the error body "Invalid room ID", which is not the
error body carrying that message. -/
theorem getRoom_deleteRoom_drop_validation_message :
    ((rejecting requiredNameError).findById "r1" ()).1 =
        .error ⟨ErrorKind.validationFailure, "Room validation failed: name is required"⟩ ∧
    bodies (getRoom (rejecting requiredNameError) (request "r1" "") (Run.start ())).trace =
        [Body.error "Invalid room ID"] ∧
    bodies (getRoom (rejecting requiredNameError) (request "r1" "") (Run.start ())).trace ≠
        [Body.error "Room validation failed: name is required"] ∧
    ((rejecting requiredNameError).findByIdAndDelete "r1" ()).1 =
        .error ⟨ErrorKind.validationFailure, "Room validation failed: name is required"⟩ ∧
    bodies (deleteRoom (rejecting requiredNameError) (request "r1" "") (Run.start ())).trace =
        [Body.error "Invalid room ID"] ∧
    bodies (deleteRoom (rejecting requiredNameError) (request "r1" "") (Run.start ())).trace ≠
        [Body.error "Room validation failed: name is required"] := by
  simp [rejecting, failingStore, requiredNameError, request, getRoom, deleteRoom, Run.await,
    Run.start, tryCatch, settle, Run.status, Run.json, Run.consoleError, Body.stringifyError,
      responses, storeCalls, statuses, bodies, callsPrecedeResponses]

/-- C8 (amended): in `createRoom` and `updateRoom`, a store call rejected with
a validation failure carrying message `m` is answered 400 with the error body
carrying `m` verbatim; in `getRoom` and `deleteRoom` the same failure is
answered 400 with the fixed error body "Invalid room ID", whatever `m` is, so
that the body carries `m` exactly when `m` is itself "Invalid room ID". -/
theorem validation_message_by_handler (store : Store Id Room ReqBody σ) (req : Req Id ReqBody)
    (db : σ) (m : String) :
    ((store.create req.body db).1 = .error ⟨ErrorKind.validationFailure, m⟩ →
      responses (createRoom store req (Run.start db)).trace = [(400, Body.error m)]) ∧
    ((store.findByIdAndUpdate req.params.id req.body
        { new := true, runValidators := true } db).1 = .error ⟨ErrorKind.validationFailure, m⟩ →
      responses (updateRoom store req (Run.start db)).trace = [(400, Body.error m)]) ∧
    ((store.findById req.params.id db).1 = .error ⟨ErrorKind.validationFailure, m⟩ →
      responses (getRoom store req (Run.start db)).trace =
          [(400, Body.error "Invalid room ID")] ∧
        (responses (getRoom store req (Run.start db)).trace = [(400, Body.error m)] ↔
          m = "Invalid room ID")) ∧
    ((store.findByIdAndDelete req.params.id db).1 = .error ⟨ErrorKind.validationFailure, m⟩ →
      responses (deleteRoom store req (Run.start db)).trace =
          [(400, Body.error "Invalid room ID")] ∧
        (responses (deleteRoom store req (Run.start db)).trace = [(400, Body.error m)] ↔
          m = "Invalid room ID")) := by
  refine ⟨fun h => ?_, fun h => ?_, fun h => ?_, fun h => ?_⟩
  · simp [createRoom, Run.await, Run.start, h, tryCatch, settle, Run.status, Run.json, Run.consoleError, Body.stringifyError,
      responses, storeCalls, statuses, bodies, callsPrecedeResponses]
  · simp [updateRoom, Run.await, Run.start, h, tryCatch, settle, Run.status, Run.json, Run.consoleError, Body.stringifyError,
      responses, storeCalls, statuses, bodies, callsPrecedeResponses]
  · have hfix : responses (getRoom store req (Run.start db)).trace =
        [(400, Body.error "Invalid room ID")] := by
      simp [getRoom, Run.await, Run.start, h, tryCatch, settle, Run.status, Run.json, Run.consoleError, Body.stringifyError,
      responses, storeCalls, statuses, bodies, callsPrecedeResponses]
    refine ⟨hfix, ?_⟩
    rw [hfix]
    constructor
    · intro heq
      simpa using heq.symm
    · rintro rfl
      rfl
  · have hfix : responses (deleteRoom store req (Run.start db)).trace =
        [(400, Body.error "Invalid room ID")] := by
      simp [deleteRoom, Run.await, Run.start, h, tryCatch, settle, Run.status, Run.json, Run.consoleError, Body.stringifyError,
      responses, storeCalls, statuses, bodies, callsPrecedeResponses]
    refine ⟨hfix, ?_⟩
    rw [hfix]
    constructor
    · intro heq
      simpa using heq.symm
    · rintro rfl
      rfl

/-- C8 (amended), at a concrete store: every call is rejected with the
validation failure "Room validation failed: name is required"; `createRoom`
and `updateRoom` answer with that message, `getRoom` and `deleteRoom` with
"Invalid room ID". -/
theorem validation_message_by_handler_witness :
    responses (createRoom (rejecting requiredNameError) (request "r1" "") (Run.start ())).trace =
        [(400, Body.error "Room validation failed: name is required")] ∧
    responses (updateRoom (rejecting requiredNameError) (request "r1" "") (Run.start ())).trace =
        [(400, Body.error "Room validation failed: name is required")] ∧
    responses (getRoom (rejecting requiredNameError) (request "r1" "") (Run.start ())).trace =
        [(400, Body.error "Invalid room ID")] ∧
    responses (deleteRoom (rejecting requiredNameError) (request "r1" "") (Run.start ())).trace =
        [(400, Body.error "Invalid room ID")] :=
  have h := validation_message_by_handler (rejecting requiredNameError) (request "r1" "") ()
    "Room validation failed: name is required"
  ⟨h.1 rfl, h.2.1 rfl, (h.2.2.1 rfl).1, (h.2.2.2 rfl).1⟩

/-- C9 (as stated, refuted): two calls of `updateRoom` are both rejected with an
identifier-format failure, and the two response bodies differ, each carrying
the message of its own failure. -/
theorem updateRoom_malformed_id_body_varies :
    ((rejecting castErrorAbc).findByIdAndUpdate "abc" "" ⟨true, true⟩ ()).1 =
        .error ⟨ErrorKind.malformedIdentifier, "Cast to ObjectId failed for value abc"⟩ ∧
    ((rejecting castErrorXyz).findByIdAndUpdate "xyz" "" ⟨true, true⟩ ()).1 =
        .error ⟨ErrorKind.malformedIdentifier, "Cast to ObjectId failed for value xyz"⟩ ∧
    responses (updateRoom (rejecting castErrorAbc) (request "abc" "") (Run.start ())).trace =
        [(400, Body.error "Cast to ObjectId failed for value abc")] ∧
    responses (updateRoom (rejecting castErrorXyz) (request "xyz" "") (Run.start ())).trace =
        [(400, Body.error "Cast to ObjectId failed for value xyz")] ∧
    bodies (updateRoom (rejecting castErrorAbc) (request "abc" "") (Run.start ())).trace ≠
      bodies (updateRoom (rejecting castErrorXyz) (request "xyz" "") (Run.start ())).trace := by
  simp [rejecting, failingStore, castErrorAbc, castErrorXyz, request, updateRoom, Run.await,
    Run.start, tryCatch, settle, Run.status, Run.json, Run.consoleError, Body.stringifyError,
      responses, storeCalls, statuses, bodies, callsPrecedeResponses]

/-- C9 (amended): in `getRoom` and `deleteRoom`, a store call rejected with an
identifier-format failure is answered 400 with the fixed error body
"Invalid room ID", whatever message the failure carries; in `updateRoom` it
is answered 400 with the error body carrying the message of the failure. -/
theorem malformed_id_by_handler (store : Store Id Room ReqBody σ) (req : Req Id ReqBody)
    (db : σ) (m : String) :
    ((store.findById req.params.id db).1 = .error ⟨ErrorKind.malformedIdentifier, m⟩ →
      responses (getRoom store req (Run.start db)).trace =
        [(400, Body.error "Invalid room ID")]) ∧
    ((store.findByIdAndDelete req.params.id db).1 = .error ⟨ErrorKind.malformedIdentifier, m⟩ →
      responses (deleteRoom store req (Run.start db)).trace =
        [(400, Body.error "Invalid room ID")]) ∧
    ((store.findByIdAndUpdate req.params.id req.body
        { new := true, runValidators := true } db).1 = .error ⟨ErrorKind.malformedIdentifier, m⟩ →
      responses (updateRoom store req (Run.start db)).trace = [(400, Body.error m)]) := by
  refine ⟨fun h => ?_, fun h => ?_, fun h => ?_⟩
  · simp [getRoom, Run.await, Run.start, h, tryCatch, settle, Run.status, Run.json, Run.consoleError, Body.stringifyError,
      responses, storeCalls, statuses, bodies, callsPrecedeResponses]
  · simp [deleteRoom, Run.await, Run.start, h, tryCatch, settle, Run.status, Run.json, Run.consoleError, Body.stringifyError,
      responses, storeCalls, statuses, bodies, callsPrecedeResponses]
  · simp [updateRoom, Run.await, Run.start, h, tryCatch, settle, Run.status, Run.json, Run.consoleError, Body.stringifyError,
      responses, storeCalls, statuses, bodies, callsPrecedeResponses]

/-- C9 (amended), at a concrete store: every call is rejected with the
identifier-format failure for "abc"; `getRoom` and `deleteRoom` answer with
"Invalid room ID", `updateRoom` with the message of the failure. -/
theorem malformed_id_by_handler_witness :
    responses (getRoom (rejecting castErrorAbc) (request "abc" "") (Run.start ())).trace =
        [(400, Body.error "Invalid room ID")] ∧
    responses (deleteRoom (rejecting castErrorAbc) (request "abc" "") (Run.start ())).trace =
        [(400, Body.error "Invalid room ID")] ∧
    responses (updateRoom (rejecting castErrorAbc) (request "abc" "") (Run.start ())).trace =
        [(400, Body.error "Cast to ObjectId failed for value abc")] :=
  have h := malformed_id_by_handler (rejecting castErrorAbc) (request "abc" "") ()
    "Cast to ObjectId failed for value abc"
  ⟨h.1 rfl, h.2.1 rfl, h.2.2 rfl⟩

/-- C10: over any reference store (the state is a map from identifier to Room,
`findById` returns the entry or nothing, `findByIdAndDelete` removes and
returns it), for every state and every identifier present in it: `deleteRoom`
answers 200; `getRoom` on the state it leaves answers 404; a second
`deleteRoom` answers 404, whether it comes right after the first or after the
fetch. -/
theorem delete_then_fetch_then_delete [DecidableEq Id]
    (store : Store Id Room ReqBody (Id → Option Room)) (hstore : IsReferenceStore store)
    (db : Id → Option Room) (id : Id) (b₁ b₂ b₃ : ReqBody) (hpresent : db id ≠ none) :
    statuses (deleteRoom store ⟨⟨id⟩, b₁⟩ (Run.start db)).trace = [200] ∧
    statuses (getRoom store ⟨⟨id⟩, b₂⟩
      (Run.start (deleteRoom store ⟨⟨id⟩, b₁⟩ (Run.start db)).db)).trace = [404] ∧
    statuses (deleteRoom store ⟨⟨id⟩, b₃⟩
      (Run.start (deleteRoom store ⟨⟨id⟩, b₁⟩ (Run.start db)).db)).trace = [404] ∧
    statuses (deleteRoom store ⟨⟨id⟩, b₃⟩
      (Run.start (getRoom store ⟨⟨id⟩, b₂⟩
        (Run.start (deleteRoom store ⟨⟨id⟩, b₁⟩ (Run.start db)).db)).db)).trace = [404] := by
  obtain ⟨hfind, hdel⟩ := hstore
  obtain ⟨r, hr⟩ := Option.ne_none_iff_exists'.mp hpresent
  simp [deleteRoom_statuses, getRoom_statuses, deleteRoom_db, getRoom_db, hfind, hdel, hr]

/-- C10, at a concrete store: the map holding "Lab 1" under "r1" is a state of
the reference store `roomMap` with "r1" present; deleting "r1" answers 200,
fetching it then answers 404, and deleting it again answers 404. -/
theorem delete_then_fetch_then_delete_witness :
    IsReferenceStore roomMap ∧ singleRoom "r1" "Lab 1" "r1" ≠ none ∧
    statuses (deleteRoom roomMap (request "r1" "") (Run.start (singleRoom "r1" "Lab 1"))).trace
      = [200] ∧
    statuses (getRoom roomMap (request "r1" "")
      (Run.start (deleteRoom roomMap (request "r1" "")
        (Run.start (singleRoom "r1" "Lab 1"))).db)).trace = [404] ∧
    statuses (deleteRoom roomMap (request "r1" "")
      (Run.start (deleteRoom roomMap (request "r1" "")
        (Run.start (singleRoom "r1" "Lab 1"))).db)).trace = [404] :=
  have hstore : IsReferenceStore roomMap := ⟨fun _ _ => rfl, fun _ _ => rfl⟩
  have hpresent : singleRoom "r1" "Lab 1" "r1" ≠ none := by simp [singleRoom]
  have h := delete_then_fetch_then_delete roomMap hstore (singleRoom "r1" "Lab 1") "r1" "" "" ""
    hpresent
  ⟨hstore, hpresent, h.1, h.2.1, h.2.2.1⟩

end RoomController
